import Mathlib

/-!
Verification of the playstudy-api request-middleware pipeline.

This file gives a shallow embedding, in Lean 4, of the parts of the
playstudy-api Python code base that the specification talks about:

* `app/middleware/rate_limiting.py` (`InMemoryStore`, `RateLimitingMiddleware`),
* `app/middleware/authentication.py` (`AuthenticationMiddleware`, `get_current_user`),
* `app/middleware/logging.py` (`RequestLoggingMiddleware`, `RequestBodyLoggingMiddleware._sanitize_json`),
* `app/core/security.py` (`decode_token`),
* `app/core/exceptions.py` (the `BaseAPIException` hierarchy),
* `app/models/domain/user.py` (the `User` dataclass) and
  `app/services/user_services.py` (`calculate_level`),
* the middleware registration sequence of `app/main.py`.

Modelling conventions:

* Python exceptions are modelled with `Except PyExc`; an uncaught exception
  is an `Except.error` value that propagates.
* Wall-clock instants (`time.time()`, `datetime.utcnow()`) are passed in
  explicitly as integer parameters named `now` (for the logging middleware,
  timestamps are taken in milliseconds so that the rounded duration in
  milliseconds is just a difference).
* Python `dict`s whose contents matter pointwise (the rate-limit store) are
  modelled as functions into `Option`; JSON objects keep their field order
  and are modelled as association lists.
* The `jose` JWT library is an external collaborator; its `jwt.decode` is
  modelled as an oracle `verify : String → JoseResult` where `JoseResult.jwtError`
  stands for any `jose.JWTError` (malformed token, wrong signature, or an
  `exp` in the past, all of which `jwt.decode` rejects by default).
* Python string helpers (`startswith`, `split`, `strip`, `lower`, `replace`)
  are re-implemented structurally on `List Char` so that all definitions
  reduce by `rfl` on concrete inputs.
-/

/-- Python `str.startswith(p)`. -/
def pyStartsWith (s p : String) : Bool :=
  p.data.isPrefixOf s.data

/-- Auxiliary for `pySplitChar`: walks the character list accumulating the
current chunk (in reverse). -/
def pySplitCharAux (sep : Char) : List Char → List Char → List String
  | [], acc => [⟨acc.reverse⟩]
  | c :: rest, acc =>
    if c == sep then ⟨acc.reverse⟩ :: pySplitCharAux sep rest []
    else pySplitCharAux sep rest (c :: acc)

/-- Python `str.split(sep)` for a one-character separator; `"".split(sep)`
returns `[""]`, like Python. -/
def pySplitChar (s : String) (sep : Char) : List String :=
  pySplitCharAux sep s.data []

/-- The whitespace characters stripped by Python `str.strip()` (ASCII ones,
which is all that appears in this code base). -/
def isPySpace (c : Char) : Bool :=
  c == ' ' || c == '\t' || c == '\n' || c == '\r' || c == '\x0b' || c == '\x0c'

/-- Python `str.strip()`. -/
def pyStrip (s : String) : String :=
  ⟨((s.data.dropWhile isPySpace).reverse.dropWhile isPySpace).reverse⟩

/-- ASCII lowering of one character (the sensitive-field names in the
source are ASCII, so this matches Python `str.lower` on all inputs the
code compares against). -/
def asciiLower (c : Char) : Char :=
  if 65 ≤ c.toNat && c.toNat ≤ 90 then Char.ofNat (c.toNat + 32) else c

/-- Python `str.lower()` restricted to ASCII case folding. -/
def pyLower (s : String) : String :=
  ⟨s.data.map asciiLower⟩

/-- Fuel-driven core of `pyReplace`: replaces non-overlapping occurrences
of `pat` left to right, like Python `str.replace`. The fuel is the length
of the subject string, which bounds the recursion. -/
def pyReplaceAux (pat repl : List Char) : Nat → List Char → List Char
  | 0, s => s
  | _ + 1, [] => []
  | fuel + 1, c :: rest =>
    if pat ≠ [] ∧ pat.isPrefixOf (c :: rest) then
      repl ++ pyReplaceAux pat repl fuel (List.drop (pat.length - 1) rest)
    else
      c :: pyReplaceAux pat repl fuel rest

/-- Python `str.replace(pat, repl)` (all occurrences, left to right;
the degenerate empty-pattern case, which Python treats specially, does not
occur in this code base and is modelled as the identity). -/
def pyReplace (s pat repl : String) : String :=
  ⟨pyReplaceAux pat.data repl.data s.data.length s.data⟩

/-- Python truthiness of an optional string: `None` and `""` are falsy. -/
def pyTruthy : Option String → Bool
  | none => false
  | some s => s ≠ ""

/-- The exceptions that can propagate through the modelled code paths:
`jose.JWTError`, `pydantic.ValidationError`, Python `ValueError`, and the
`BaseAPIException` subclasses of `app/core/exceptions.py` (carrying their
`status_code`, `error_code`, `detail` and extra response headers). -/
inductive PyExc where
  | jwtError
  | validationError
  | valueError (msg : String)
  | apiError (status_code : Int) (error_code : String) (detail : String)
      (headers : List (String × String))
deriving DecidableEq, Repr

/-- `AuthenticationException` from `app/core/exceptions.py`: HTTP 401,
error code AUTHENTICATION_FAILED, with a WWW-Authenticate challenge. -/
def authenticationException (detail : String) : PyExc :=
  .apiError 401 "AUTHENTICATION_FAILED" detail [("WWW-Authenticate", "Bearer")]

/-- `RateLimitException` from `app/core/exceptions.py`: HTTP 429 with
error code RATE_LIMIT_EXCEEDED. -/
def rateLimitException : PyExc :=
  .apiError 429 "RATE_LIMIT_EXCEEDED" "Rate limit exceeded" []

/-- `ResourceNotFoundException` from `app/core/exceptions.py`: HTTP 404. -/
def resourceNotFoundException (resource_type resource_id : String) : PyExc :=
  .apiError 404 "RESOURCE_NOT_FOUND"
    (resource_type ++ " with id " ++ resource_id ++ " not found") []

/-- The fields of `app/core/config.py:Settings` that the modelled code
reads, with their defaults. -/
structure Settings where
  API_V1_STR : String := "/api/v1"
  DEBUG : Bool := false
  RATE_LIMIT_ENABLED : Bool := true
  RATE_LIMIT_REQUESTS : Int := 100
  RATE_LIMIT_PERIOD : Int := 60

/-- The process-wide `settings = get_settings()` instance with default
configuration. -/
def settings : Settings := {}

/-! ## Rate limit store (`app/middleware/rate_limiting.py:InMemoryStore`) -/

/-- `InMemoryStore`: `store` is the dict from keys to `(count, expiry)`
pairs (modelled pointwise as a function into `Option`), `last_cleanup`
the time of the last amortized sweep. -/
structure InMemoryStore where
  store : String → Option (Int × Int)
  last_cleanup : Int

/-- `InMemoryStore.cleanup_interval = 3600` (one hour). -/
def cleanup_interval : Int := 3600

namespace InMemoryStore

/-- `InMemoryStore._cleanup`: drops every entry with `expiry ≤ now`, but
only when more than `cleanup_interval` has passed since `last_cleanup`. -/
def cleanup (s : InMemoryStore) (now : Int) : InMemoryStore :=
  if now - s.last_cleanup > cleanup_interval then
    { store := fun k => match s.store k with
        | some v => if v.2 > now then some v else none
        | none => none,
      last_cleanup := now }
  else s

/-- `InMemoryStore.get`: runs `_cleanup`, then returns the stored
`(count, timestamp)` pair, defaulting to `(0, 0)`. Returns the (possibly
mutated) store alongside. -/
def get (s : InMemoryStore) (key : String) (now : Int) :
    (Int × Int) × InMemoryStore :=
  let s' := s.cleanup now
  ((s'.store key).getD (0, 0), s')

/-- `InMemoryStore.increment`: runs `_cleanup`, reads the current count
(defaulting to 0), increments it, and stores it with expiry
`now + expiry`; returns `(count, now)` like the Python method returns
`(count, timestamp)`. -/
def increment (s : InMemoryStore) (key : String) (expiry : Int) (now : Int) :
    (Int × Int) × InMemoryStore :=
  let s' := s.cleanup now
  let count := ((s'.store key).getD (0, 0)).1 + 1
  ((count, now),
   { s' with store := fun k => if k = key then some (count, now + expiry) else s'.store k })

end InMemoryStore

/-! ## Rate limiting middleware (`app/middleware/rate_limiting.py:RateLimitingMiddleware`) -/

/-- `RateLimitingMiddleware._should_skip_rate_limit`: exempt path prefixes. -/
def should_skip_rate_limit (path : String) : Bool :=
  ["/docs", "/openapi.json", "/redoc", "/health"].any (fun p => pyStartsWith path p)

/-- `RateLimitingMiddleware._get_client_id`: the rate-limit identity of a
request, as a function of `request.state.user_id` (absent when the
attribute was never set), the `X-Forwarded-For` header, and
`request.client.host` (absent when `request.client` is `None`). -/
def get_client_id (user_id : Option String) (forwarded : Option String)
    (client_host : Option String) : String :=
  if pyTruthy user_id then "user:" ++ user_id.getD ""
  else
    let client_ip :=
      if pyTruthy forwarded then
        pyStrip ((pySplitChar (forwarded.getD "") ',').headD "")
      else client_host.getD "unknown"
    "ip:" ++ client_ip

/-- Result of one pass of `RateLimitingMiddleware.__call__`:
either the middleware forwarded the request downstream
(`skipped` without touching the store, or `forwarded` after incrementing
the counter, carrying the headers it appends to the response), or it
raised an exception without invoking the downstream app. -/
inductive RLOutcome where
  | skipped
  | forwarded (count : Int) (headers : List (String × String))
  | raised (e : PyExc)
deriving DecidableEq, Repr

/-- `RateLimitingMiddleware.__call__` on an http request.
`enabled`, `max_requests` and `period` are the fields the constructor
copies out of `settings`; `client_id` is the result of
`_get_client_id` (see `get_client_id`); `now` is `time.time()`.
Returns the outcome together with the store as left behind. -/
def rateLimitingCall (enabled : Bool) (max_requests period : Int)
    (path client_id : String) (st : InMemoryStore) (now : Int) :
    RLOutcome × InMemoryStore :=
  if !enabled then (.skipped, st)
  else if should_skip_rate_limit path then (.skipped, st)
  else
    let key := "ratelimit:" ++ client_id ++ ":" ++ path
    let r1 := st.get key now
    let count := r1.1.1
    let st1 := r1.2
    if count ≥ max_requests then (.raised rateLimitException, st1)
    else
      let r2 := st1.increment key period now
      let count2 := r2.1.1
      let st2 := r2.2
      (.forwarded count2
        [("X-RateLimit-Limit", toString max_requests),
         ("X-RateLimit-Remaining", toString (max 0 (max_requests - count2))),
         ("X-RateLimit-Reset", toString (now + period))], st2)

/-! ## Token codec (`app/core/security.py`) and authentication
(`app/middleware/authentication.py`) -/

/-- Raw claim dictionary as produced by `jose.jwt.decode`; every field is
optional, validation happens in `TokenPayload`. -/
structure Payload where
  sub : Option String
  exp : Option Int
  jti : Option String
  type : Option String
deriving DecidableEq, Repr

/-- Outcome of `jose.jwt.decode(token, SECRET_KEY, ...)` (external
collaborator): `jwtError` for any `jose.JWTError` — malformed token,
wrong signature, or expired `exp` claim, all of which `jwt.decode`
rejects by default — and `payload` for a successful decode. -/
inductive JoseResult where
  | jwtError
  | payload (p : Payload)
deriving DecidableEq, Repr

/-- `app/core/security.py:decode_token`: calls `jose.jwt.decode` and turns
any `JWTError` into `ValueError("Invalid token")`. `verify` is the jose
oracle. -/
def decode_token (verify : String → JoseResult) (token : String) :
    Except PyExc Payload :=
  match verify token with
  | .jwtError => .error (.valueError "Invalid token")
  | .payload p => .ok p

/-- Validated token claims (`app/models/schemas/user.py:TokenPayload`):
`sub`, `exp`, `jti` required, `type` optional. -/
structure TokenData where
  sub : String
  exp : Int
  jti : String
  type : Option String
deriving DecidableEq, Repr

/-- `TokenPayload(**payload)`: pydantic validation, raising
`ValidationError` when a required field is missing. -/
def tokenPayloadValidate (p : Payload) : Except PyExc TokenData :=
  match p.sub, p.exp, p.jti with
  | some s, some e, some j => .ok ⟨s, e, j, p.type⟩
  | _, _, _ => .error .validationError

/-- `AuthenticationMiddleware._should_skip_auth`: the `public_paths`
prefix list (note that it contains the bare `"/"`). -/
def public_paths (s : Settings) : List String :=
  [s.API_V1_STR ++ "/auth/login", s.API_V1_STR ++ "/auth/register",
   s.API_V1_STR ++ "/docs", s.API_V1_STR ++ "/openapi.json",
   "/docs", "/openapi.json", "/", "/health"]

/-- `AuthenticationMiddleware._should_skip_auth`: prefix match of the
request path against `public_paths`. -/
def should_skip_auth (s : Settings) (path : String) : Bool :=
  (public_paths s).any (fun p => pyStartsWith path p)

/-- Result of one pass of `AuthenticationMiddleware.__call__`: the request
was forwarded downstream (with `scope["state"]["user_id"]` set to the given
value when present), or an exception escaped the middleware. -/
inductive SoftAuthOutcome where
  | forwarded (user_id : Option String)
  | raised (e : PyExc)
deriving DecidableEq, Repr

/-- Which exceptions the `except (JWTError, ValidationError)` clauses of
`authentication.py` catch. -/
def caughtByAuthHandlers : PyExc → Bool
  | .jwtError => true
  | .validationError => true
  | _ => false

/-- `AuthenticationMiddleware.__call__` on an http request. `auth_header`
is `request.headers.get("Authorization")`, `verify` the jose oracle,
`now` is `int(time.time())`. -/
def authMiddlewareCall (s : Settings) (path : String)
    (auth_header : Option String) (verify : String → JoseResult)
    (now : Int) : SoftAuthOutcome :=
  if should_skip_auth s path then .forwarded none
  else match auth_header with
    | none => .forwarded none
    | some h =>
      if !pyStartsWith h "Bearer " then .forwarded none
      else
        let token := pyReplace h "Bearer " ""
        match decode_token verify token with
        | .error e =>
          if caughtByAuthHandlers e then .forwarded none else .raised e
        | .ok payload =>
          match tokenPayloadValidate payload with
          | .error e =>
            if caughtByAuthHandlers e then .forwarded none else .raised e
          | .ok token_data =>
            if token_data.exp < now then .forwarded none
            else .forwarded (some token_data.sub)

/-! ## Hard authentication check
(`app/middleware/authentication.py:get_current_user`) -/

/-- `app/models/domain/user.py:User` — the user record. Timestamps are
integer instants; `metadata` is omitted (never read by the modelled
operations other than being carried along). -/
structure User where
  id : String
  email : String
  name : Option String := none
  image : Option String := none
  created_at : Int := 0
  updated_at : Option Int := none
  last_login : Int := 0
  xp_points : Int := 0
  level : Int := 1
  games_played : Int := 0
deriving DecidableEq, Repr

/-- `BaseRepository.get` on the users table backed by a database `db`
(DynamoDB `get_item`, the external persistence collaborator): raises
`ResourceNotFoundException` when the item is absent. Transient
`ClientError`s of the backing store are outside this model. -/
def repositoryGet (db : String → Option User) (table_name : String)
    (id : String) : Except PyExc User :=
  match db id with
  | none => .error (resourceNotFoundException table_name id)
  | some u => .ok u

/-- `UserService.get_user`: fetches the user through the repository (the
`UserResponse.model_validate(user.to_dict())` re-validation round-trips the
same record and is modelled as the identity). -/
def userServiceGetUser (db : String → Option User) (user_id : String) :
    Except PyExc User :=
  repositoryGet db "playstudy_users" user_id

/-- `app/middleware/authentication.py:get_current_user`: the hard
authentication dependency. `token` is what `OAuth2PasswordBearer`
extracted (`None` when the header is missing or not a bearer scheme,
since `auto_error=False`); `verify` is the jose oracle; `now` is
`int(time.time())`; `db` the users table. The `try` block's
`except (JWTError, ValidationError)` clause is modelled by the final
match: only those two exceptions are converted to
`AuthenticationException("Invalid authentication credentials")`, while
every other exception — in particular the `ValueError` that
`decode_token` raises and any `BaseAPIException` — propagates unchanged.
The source's `if user is None` check is unreachable because
`BaseRepository.get` raises instead of returning `None`. -/
def get_current_user (token : Option String) (verify : String → JoseResult)
    (now : Int) (db : String → Option User) : Except PyExc User :=
  match token with
  | none => .error (authenticationException "Not authenticated")
  | some t =>
    let body : Except PyExc User :=
      match decode_token verify t with
      | .error e => .error e
      | .ok payload =>
        match tokenPayloadValidate payload with
        | .error e => .error e
        | .ok token_data =>
          if token_data.exp < now then
            .error (authenticationException "Token expired")
          else
            match userServiceGetUser db token_data.sub with
            | .error e => .error e
            | .ok user => .ok user
    match body with
    | .error .jwtError =>
      .error (authenticationException "Invalid authentication credentials")
    | .error .validationError =>
      .error (authenticationException "Invalid authentication credentials")
    | r => r

/-! ## Request logging middleware
(`app/middleware/logging.py:RequestLoggingMiddleware`) -/

/-- `RequestLoggingMiddleware._should_skip_logging`. -/
def should_skip_logging (path : String) : Bool :=
  ["/health", "/static"].any (fun p => pyStartsWith path p)

/-- One structured log record as emitted with `logger.info`/`logger.error`
in `RequestLoggingMiddleware.__call__` (the `extra` fields the claims talk
about). -/
structure LogRecord where
  kind : String
  request_id : String
  method : String
  path : String
  status_code : Option Int := none
  duration_ms : Option Int := none
  error : Option String := none
deriving DecidableEq, Repr

/-- What the downstream ASGI app does when the logging middleware awaits
it: send a response starting with the given status code, or raise. -/
inductive Downstream where
  | success (status : Int)
  | failure (e : PyExc)
deriving DecidableEq, Repr

/-- How a pass of the logging middleware terminates: the response
completed downstream, or the downstream exception was re-raised. -/
inductive LogResult where
  | completed (status : Int)
  | raised (e : PyExc)
deriving DecidableEq, Repr

/-- The observable effects of one pass of
`RequestLoggingMiddleware.__call__`. -/
structure LoggingOutcome where
  state_request_id : String
  records : List LogRecord
  response_headers : List (String × String)
  result : LogResult
deriving DecidableEq, Repr

/-- `str(e)` for a propagating exception (its message/detail). -/
def excMessage : PyExc → String
  | .jwtError => "JWTError"
  | .validationError => "ValidationError"
  | .valueError m => m
  | .apiError _ _ detail _ => detail

/-- `RequestLoggingMiddleware.__call__` on an http request. `request_id`
is the fresh `str(uuid.uuid4())` generated at entry (modelled as an input,
since uuid generation is nondeterministic); it is written into
`scope["state"]` before the skip check. `t0` and `t1` are the wall clock
at entry and at exit in milliseconds, so that
`round((time.time() - start_time) * 1000) = t1 - t0`. On a skipped path
the downstream app is awaited with the unwrapped `send`: no records and
no extra headers. Otherwise a "started" record is emitted, the
`X-Request-ID` header is appended when the response starts, and a
"completed" (respectively "failed") record is emitted on normal
(respectively exceptional) exit, the exception being re-raised
unchanged. -/
def requestLoggingCall (path method request_id : String) (down : Downstream)
    (t0 t1 : Int) : LoggingOutcome :=
  if should_skip_logging path then
    { state_request_id := request_id, records := [], response_headers := [],
      result := match down with
        | .success status => .completed status
        | .failure e => .raised e }
  else
    let started : LogRecord :=
      { kind := "started", request_id := request_id, method := method, path := path }
    match down with
    | .success status =>
      { state_request_id := request_id,
        records := [started,
          { kind := "completed", request_id := request_id, method := method,
            path := path, status_code := some status,
            duration_ms := some (t1 - t0) }],
        response_headers := [("X-Request-ID", request_id)],
        result := .completed status }
    | .failure e =>
      { state_request_id := request_id,
        records := [started,
          { kind := "failed", request_id := request_id, method := method,
            path := path, duration_ms := some (t1 - t0),
            error := some (excMessage e) }],
        response_headers := [],
        result := .raised e }

/-! ## Middleware registration (`app/main.py`) -/

/-- The middleware classes registered on the FastAPI app in
`app/main.py` (in source order: CORS, request logging, rate limiting,
authentication, and the `@app.middleware("http")` security-headers
wrapper). -/
inductive MW where
  | cors
  | requestLogging
  | rateLimiting
  | authentication
  | securityHeaders
deriving DecidableEq, Repr

/-- Starlette `Starlette.add_middleware` (external framework collaborator):
each call inserts the new middleware at position 0 of `user_middleware`,
and `build_middleware_stack` wraps the app so that the FIRST element of
`user_middleware` becomes the OUTERMOST layer; hence the middleware added
last is outermost. -/
def add_middleware (user_middleware : List MW) (m : MW) : List MW :=
  m :: user_middleware

/-- The `user_middleware` list produced by the registration sequence of
`app/main.py` (lines 36, 45, 46, 47, and the decorator at line 78),
ordered outermost first. -/
def mainUserMiddleware : List MW :=
  add_middleware
    (add_middleware
      (add_middleware
        (add_middleware
          (add_middleware [] .cors)
          .requestLogging)
        .rateLimiting)
      .authentication)
    .securityHeaders

/-! ## User domain model (`app/models/domain/user.py`) and level rule
(`app/services/user_services.py:calculate_level`) -/

/-- Python `int(x / 100)` on an integer `x`: float division truncated
toward zero, which on integers is T-division, i.e. Lean's `Int.div`
(exact as long as `x` is within float precision, which covers every xp
value the clamped level can distinguish). -/
def pyIntDivHundred (x : Int) : Int :=
  Int.tdiv x 100

/-- `UserService.calculate_level`:
`min(max(1, int(xp / 100) + 1), 100)`. -/
def calculate_level (xp : Int) : Int :=
  min (max 1 (pyIntDivHundred xp + 1)) 100

namespace User

/-- `User.create(email, name, image)` (the generated uuid is an input). -/
def create (id email : String) (name image : Option String) (now : Int) : User :=
  { id := id, email := email, name := name, image := image,
    created_at := now, last_login := now }

/-- `User.update_login`. -/
def update_login (u : User) (now : Int) : User :=
  { u with last_login := now, updated_at := some now }

/-- `User.update_profile(name, image)`: each field is assigned only when
the argument is not `None`. -/
def update_profile (u : User) (name image : Option String) (now : Int) : User :=
  { u with
    name := match name with | some n => some n | none => u.name,
    image := match image with | some i => some i | none => u.image,
    updated_at := some now }

/-- `User.add_xp(xp_increase)`: adds the xp and recomputes
`level = min(max(1, int(xp_points / 100) + 1), 100)`. -/
def add_xp (u : User) (xp_increase : Int) (now : Int) : User :=
  { u with
    xp_points := u.xp_points + xp_increase,
    level := min (max 1 (pyIntDivHundred (u.xp_points + xp_increase) + 1)) 100,
    updated_at := some now }

/-- `User.increment_games_played`. -/
def increment_games_played (u : User) (now : Int) : User :=
  { u with games_played := u.games_played + 1, updated_at := some now }

end User

/-- The level invariant exactly as the specification words it:
`level == clamp(floor(xp_points / 100) + 1, 1, 100)`, with a true
mathematical floor division (`Int.fdiv`). -/
def levelInvariant (u : User) : Prop :=
  u.level = min (max (Int.fdiv u.xp_points 100 + 1) 1) 100

/-! ## Body sanitizer
(`app/middleware/logging.py:RequestBodyLoggingMiddleware._sanitize_json`) -/

mutual

/-- JSON values as `json.loads` produces them. `arr`/`obj` use the mutual
list types below so that all recursion over them is structural. -/
inductive Json where
  | null
  | bool (b : Bool)
  | num (n : Int)
  | str (s : String)
  | arr (items : JsonList)
  | obj (fields : JsonFields)

/-- A JSON array, as a mutual inductive list. -/
inductive JsonList where
  | nil
  | cons (head : Json) (tail : JsonList)

/-- A JSON object: fields in insertion order, as in a Python dict. -/
inductive JsonFields where
  | nil
  | cons (key : String) (value : Json) (tail : JsonFields)

end

/-- The `sensitive_fields` list of `_sanitize_json`. -/
def sensitive_fields : List String :=
  ["password", "password_confirm", "current_password",
   "new_password", "token", "access_token", "refresh_token",
   "api_key", "secret", "credit_card", "card_number",
   "cvv", "cvc", "ssn", "social_security"]

/-- Python substring containment `pat in s` on character lists. -/
def charsContain (pat : List Char) : List Char → Bool
  | [] => pat.isPrefixOf []
  | c :: rest => pat.isPrefixOf (c :: rest) || charsContain pat rest

/-- `any(sensitive in key.lower() for sensitive in sensitive_fields)`. -/
def isSensitiveKey (key : String) : Bool :=
  sensitive_fields.any (fun f => charsContain f.data (pyLower key).data)

/-- The mask `"********"` written over sensitive values. -/
def maskValue : Json := .str "********"

mutual

/-- `RequestBodyLoggingMiddleware._sanitize_json`: a non-dict is returned
unchanged; a dict is rebuilt field by field. -/
def sanitizeJson : Json → Json
  | .obj fields => .obj (sanitizeFields fields)
  | j => j

/-- The field loop of `_sanitize_json`: a sensitive key is bound to the
mask (whatever its value was); otherwise a dict value is sanitized
recursively, a list value has exactly its dict items sanitized, and any
other value is kept as is. -/
def sanitizeFields : JsonFields → JsonFields
  | .nil => .nil
  | .cons k v rest =>
    .cons k
      (if isSensitiveKey k then maskValue else sanitizeValue v)
      (sanitizeFields rest)

/-- Sanitization of a value under a non-sensitive key. -/
def sanitizeValue : Json → Json
  | .obj fields => .obj (sanitizeFields fields)
  | .arr items => .arr (sanitizeItems items)
  | v => v

/-- `self._sanitize_json(item) if isinstance(item, dict) else item`:
one item of a list value — sanitized when it is a dict, kept as is
otherwise (in particular nested lists are not entered). -/
def sanitizeItem : Json → Json
  | .obj fields => .obj (sanitizeFields fields)
  | other => other

/-- The list comprehension over a list value's items. -/
def sanitizeItems : JsonList → JsonList
  | .nil => .nil
  | .cons item rest => .cons (sanitizeItem item) (sanitizeItems rest)

end

/-- The key list of a JSON object, in order. -/
def jsonKeys : JsonFields → List String
  | .nil => []
  | .cons k _ rest => k :: jsonKeys rest

mutual

/-- Structural equality test on `Json` (Python `==` on parsed JSON). -/
def jsonBeq : Json → Json → Bool
  | .null, .null => true
  | .bool a, .bool b => a == b
  | .num a, .num b => a == b
  | .str a, .str b => a == b
  | .arr a, .arr b => jsonListBeq a b
  | .obj a, .obj b => jsonFieldsBeq a b
  | _, _ => false

/-- Structural equality test on `JsonList`. -/
def jsonListBeq : JsonList → JsonList → Bool
  | .nil, .nil => true
  | .cons a as, .cons b bs => jsonBeq a b && jsonListBeq as bs
  | _, _ => false

/-- Structural equality test on `JsonFields`. -/
def jsonFieldsBeq : JsonFields → JsonFields → Bool
  | .nil, .nil => true
  | .cons k v rest, .cons k' v' rest' =>
    k == k' && jsonBeq v v' && jsonFieldsBeq rest rest'
  | _, _ => false

end

mutual

/-- Two JSON values that differ only in the values bound to sensitive
keys, in exactly the positions `sanitizeJson` reaches: at the top level
only dicts are entered, dict values of non-sensitive keys are compared
recursively, dict items of list values of non-sensitive keys are
compared recursively, and everything else must be equal (the `refl`
constructors). -/
inductive AgreeJson : Json → Json → Prop where
  | obj {fa fb : JsonFields} : AgreeFields fa fb →
      AgreeJson (Json.obj fa) (Json.obj fb)
  | refl (a : Json) : AgreeJson a a

/-- Fieldwise agreement: same keys in the same order, values
unconstrained at sensitive keys and in agreement elsewhere. -/
inductive AgreeFields : JsonFields → JsonFields → Prop where
  | nil : AgreeFields JsonFields.nil JsonFields.nil
  | sensitive {k : String} {v v' : Json} {rest rest' : JsonFields} :
      isSensitiveKey k = true → AgreeFields rest rest' →
      AgreeFields (JsonFields.cons k v rest) (JsonFields.cons k v' rest')
  | value {k : String} {v v' : Json} {rest rest' : JsonFields} :
      AgreeValue v v' → AgreeFields rest rest' →
      AgreeFields (JsonFields.cons k v rest) (JsonFields.cons k v' rest')

/-- Agreement of values under a non-sensitive key. -/
inductive AgreeValue : Json → Json → Prop where
  | obj {fa fb : JsonFields} : AgreeFields fa fb →
      AgreeValue (Json.obj fa) (Json.obj fb)
  | arr {la lb : JsonList} : AgreeItems la lb →
      AgreeValue (Json.arr la) (Json.arr lb)
  | refl (a : Json) : AgreeValue a a

/-- Agreement of one item of a list value: dict items agree fieldwise,
any other item must be equal. -/
inductive AgreeItem : Json → Json → Prop where
  | obj {fa fb : JsonFields} : AgreeFields fa fb →
      AgreeItem (Json.obj fa) (Json.obj fb)
  | refl (a : Json) : AgreeItem a a

/-- Itemwise agreement of list values. -/
inductive AgreeItems : JsonList → JsonList → Prop where
  | nil : AgreeItems JsonList.nil JsonList.nil
  | cons {a b : Json} {as bs : JsonList} : AgreeItem a b →
      AgreeItems as bs → AgreeItems (JsonList.cons a as) (JsonList.cons b bs)

end

mutual

/-- Every sensitive key of the object (in every position `sanitizeJson`
reaches) is bound to the mask. -/
def maskedJson : Json → Bool
  | .obj fields => maskedFields fields
  | _ => true

/-- Fieldwise check for `maskedJson`. -/
def maskedFields : JsonFields → Bool
  | .nil => true
  | .cons k v rest =>
    (if isSensitiveKey k then jsonBeq v maskValue else maskedValue v)
      && maskedFields rest

/-- Value check for `maskedFields` under a non-sensitive key. -/
def maskedValue : Json → Bool
  | .obj fields => maskedFields fields
  | .arr items => maskedItems items
  | _ => true

/-- Item check for `maskedValue`: dict items are checked recursively. -/
def maskedItems : JsonList → Bool
  | .nil => true
  | .cons item rest =>
    (match item with
      | .obj fields => maskedFields fields
      | _ => true)
      && maskedItems rest

end

/-! ## Helper lemmas -/

/-- Running `_cleanup` twice at the same instant is the same as running it
once: the first run either updates `last_cleanup` to `now` or leaves the
store untouched, so the second run's guard is false. -/
theorem InMemoryStore.cleanup_idem (s : InMemoryStore) (now : Int) :
    (s.cleanup now).cleanup now = s.cleanup now := by
  unfold InMemoryStore.cleanup
  split
  · simp [cleanup_interval]
  · rfl

/-- The clamped level the code computes with Python truncating division
agrees with the specification's clamp of the floor division: for
non-negative xp the two divisions coincide, and for negative xp both
clamp to 1. -/
theorem level_formula_eq (x : Int) :
    min (max 1 (Int.tdiv x 100 + 1)) 100 = min (max (Int.fdiv x 100 + 1) 1) 100 := by
  rw [Int.fdiv_eq_ediv x (by norm_num)]
  rcases le_or_lt 0 x with hx | hx
  · rw [Int.tdiv_eq_ediv hx (by norm_num), max_comm]
  · have h1 : Int.tdiv x 100 = -((-x) / 100) := by
      rw [← Int.tdiv_eq_ediv (by omega) (by norm_num), ← Int.neg_tdiv, Int.neg_neg]
    have h2 : 0 ≤ (-x) / 100 := Int.ediv_nonneg (by omega) (by norm_num)
    have h3 : x / 100 < 0 := Int.ediv_neg' hx (by norm_num)
    omega

/-! ## Claim C1 -/

/-- C1, counterexample: the Rate Limit Store does NOT treat an entry with
`expiry ≤ now` as absent on read. With the entry `("k", (3, 100))`,
`last_cleanup = 0` and `now = 200` (so the entry expired 100 seconds ago
but the hourly cleanup is not yet due), `get` returns count 3, not 0; and
with `max_requests = 3`, window 60 s, a counter that reached 3 at time 10
(expiry 70) still throttles the 4th request at time 200, after the window
elapsed. -/
theorem claimC1_counterexample :
    ((100 : Int) ≤ 200 ∧
      (InMemoryStore.get ⟨fun k => if k = "k" then some (3, 100) else none, 0⟩
        "k" 200).1.1 = 3) ∧
    (rateLimitingCall true 3 60 "/api/v1/games" "ip:1.2.3.4"
      ⟨fun k => if k = "ratelimit:ip:1.2.3.4:/api/v1/games" then some (3, 70) else none, 0⟩
      200).1 = .raised rateLimitException := by
  refine ⟨⟨by norm_num, rfl⟩, rfl⟩

/-- C1, amended: `InMemoryStore.get` returns 0 for an entry whose
`expiry ≤ now` only via the amortized `_cleanup`, i.e. only when more
than `cleanup_interval = 3600` seconds have passed since `last_cleanup`
(in which case a subsequent `increment` restarts the counter at 1);
within that interval `get` returns the stored count unchanged even
though the entry is expired, so the 4th request of the spec's
max_requests=3 / 60 s scenario is still throttled until the hourly
cleanup runs. -/
theorem claimC1_amended (store : String → Option (Int × Int))
    (lc : Int) (key : String) (c e w now : Int)
    (hlook : store key = some (c, e)) (hexp : e ≤ now) :
    (now - lc ≤ cleanup_interval →
      (InMemoryStore.get ⟨store, lc⟩ key now).1.1 = c) ∧
    (now - lc > cleanup_interval →
      (InMemoryStore.get ⟨store, lc⟩ key now).1.1 = 0 ∧
      ((InMemoryStore.get ⟨store, lc⟩ key now).2.increment key w now).1.1 = 1 ∧
      ((InMemoryStore.get ⟨store, lc⟩ key now).2.increment key w now).2.store key
        = some (1, now + w)) := by
  constructor
  · intro h
    have hclean : InMemoryStore.cleanup ⟨store, lc⟩ now = ⟨store, lc⟩ := by
      unfold InMemoryStore.cleanup
      exact if_neg (by show ¬ now - lc > cleanup_interval; omega)
    simp [InMemoryStore.get, hclean, hlook]
  · intro h
    have hclean : InMemoryStore.cleanup ⟨store, lc⟩ now =
        ⟨fun k => match store k with
          | some v => if v.2 > now then some v else none
          | none => none, now⟩ := by
      unfold InMemoryStore.cleanup
      exact if_pos (by show now - lc > cleanup_interval; omega)
    have hkey : (match store key with
        | some v => if v.2 > now then some v else none
        | none => (none : Option (Int × Int))) = none := by
      rw [hlook]
      simp only
      rw [if_neg (by omega)]
    have hget2 : (InMemoryStore.get ⟨store, lc⟩ key now).2
        = InMemoryStore.cleanup ⟨store, lc⟩ now := rfl
    have hstep : (InMemoryStore.cleanup ⟨store, lc⟩ now).cleanup now
        = InMemoryStore.cleanup ⟨store, lc⟩ now :=
      InMemoryStore.cleanup_idem _ _
    rw [hclean] at hstep
    refine ⟨?_, ?_, ?_⟩
    · simp only [InMemoryStore.get, hclean]
      simp [hkey]
    · simp only [InMemoryStore.increment, hget2, hclean, hstep]
      simp [hkey]
    · simp only [InMemoryStore.increment, hget2, hclean, hstep]
      simp [hkey]

/-- C1, witness for the amended theorem: both branches instantiated. The
entry `("k", (3, 100))` is expired at `now = 200`; with `last_cleanup = 0`
the cleanup is not due and `get` still returns 3; at `now = 4000` the
cleanup is due, `get` returns 0 and the next `increment` restarts the
counter at `(1, 4000 + 60)`. -/
theorem claimC1_amended_witness :
    (InMemoryStore.get ⟨fun k => if k = "k" then some (3, 100) else none, 0⟩
      "k" 200).1.1 = 3 ∧
    ((InMemoryStore.get ⟨fun k => if k = "k" then some (3, 100) else none, 0⟩
      "k" 4000).1.1 = 0 ∧
     ((InMemoryStore.get ⟨fun k => if k = "k" then some (3, 100) else none, 0⟩
       "k" 4000).2.increment "k" 60 4000).2.store "k" = some (1, 4060)) :=
  ⟨(claimC1_amended (fun k => if k = "k" then some (3, 100) else none)
      0 "k" 3 100 60 200 rfl (by norm_num)).1 (by norm_num [cleanup_interval]),
   ((claimC1_amended (fun k => if k = "k" then some (3, 100) else none)
      0 "k" 3 100 60 4000 rfl (by norm_num)).2 (by norm_num [cleanup_interval])).1,
   (((claimC1_amended (fun k => if k = "k" then some (3, 100) else none)
      0 "k" 3 100 60 4000 rfl (by norm_num)).2 (by norm_num [cleanup_interval])).2).2⟩

/-! ## Claim C4 -/

/-- C4, counterexample: the registration sequence of `app/main.py` does
NOT put the Logging Stage outermost; in the resulting
outermost-first `user_middleware` list the Authentication middleware
comes strictly before (outside) the logging middleware, so logging does
not execute first and authentication is not innermost. -/
theorem claimC4_counterexample :
    ¬ (mainUserMiddleware.indexOf MW.requestLogging
        < mainUserMiddleware.indexOf MW.rateLimiting ∧
       mainUserMiddleware.indexOf MW.rateLimiting
        < mainUserMiddleware.indexOf MW.authentication) := by
  decide

/-- C4, amended: because Starlette's `add_middleware` prepends, the actual
nesting order (outermost first) produced by `app/main.py` is: the
security-headers wrapper, then Authentication, then Rate Limiting, then
Request Logging, then CORS, then the application router — the reverse of
the claimed order of the three custom stages: on an inbound request the
Authentication Stage executes first and the Logging Stage executes last
before CORS and the route handler. -/
theorem claimC4_amended :
    mainUserMiddleware =
      [MW.securityHeaders, MW.authentication, MW.rateLimiting,
       MW.requestLogging, MW.cors] := rfl

/-! ## Claim C2 -/

/-- C2: a request whose Bearer token fails verification is forwarded
downstream by the soft Authentication Stage with no identity set and no
rejection. (This holds for every http request: `_should_skip_auth`
prefix-matches the request path against a `public_paths` list containing
the bare `"/"`, which every http path starts with, so the stage always
forwards before touching the token.) -/
theorem claimC2_soft_auth_pass_through (s : Settings) (path h : String)
    (verify : String → JoseResult) (now : Int)
    (hpath : pyStartsWith path "/" = true)
    (hbearer : pyStartsWith h "Bearer " = true)
    (hfail : verify (pyReplace h "Bearer " "") = .jwtError) :
    authMiddlewareCall s path (some h) verify now = .forwarded none := by
  have hskip : should_skip_auth s path = true := by
    refine List.any_eq_true.mpr ⟨"/", ?_, hpath⟩
    simp [public_paths]
  simp [authMiddlewareCall, hskip]

/-- C2, witness: a concrete request with an invalid bearer token is
forwarded as anonymous. -/
theorem claimC2_witness :
    authMiddlewareCall settings "/api/v1/users/me" (some "Bearer not-a-jwt")
      (fun _ => .jwtError) 1700000000 = .forwarded none :=
  claimC2_soft_auth_pass_through settings "/api/v1/users/me" "Bearer not-a-jwt"
    (fun _ => .jwtError) 1700000000 rfl rfl rfl

/-! ## Claim C3 -/

/-- C3: evaluation of the code at the failing input. A request to
`/api/v1/users/me` with a structurally valid, unexpired bearer token
(subject `user-1`, expiry 1000, now 0) is forwarded WITHOUT
`authenticated_user_id` being set: `_should_skip_auth` matches every
path against the `"/"` entry of `public_paths`, so the token-processing
code of the middleware is unreachable and the claimed write of
`claims.subject` into the request state never happens. -/
theorem claimC3_identity_never_written :
    authMiddlewareCall settings "/api/v1/users/me" (some "Bearer abc")
      (fun _ => .payload ⟨some "user-1", some 1000, some "jti-1", none⟩) 0
      = .forwarded none ∧
    should_skip_auth settings "/api/v1/users/me" = true ∧
    SoftAuthOutcome.forwarded none ≠ .forwarded (some "user-1") := by
  refine ⟨rfl, rfl, by decide⟩

/-! ## Claim C5 -/

/-- C5: for a non-exempt request with the stage enabled, if the stored
count for the (identity, route) key is at least `max_requests` the stage
raises `RateLimitException` (HTTP 429, code RATE_LIMIT_EXCEEDED) without
invoking the downstream app and leaving the store exactly as the lazy
cleanup left it (no increment); below the limit it increments the
counter exactly once — the stored entry becomes
`(count + 1, now + period)` — and forwards the request with the rate
limit headers. -/
theorem claimC5_throttle_or_increment (maxR period : Int)
    (path clientId : String) (st : InMemoryStore) (now : Int)
    (hskip : should_skip_rate_limit path = false) :
    ((st.get ("ratelimit:" ++ clientId ++ ":" ++ path) now).1.1 ≥ maxR →
      rateLimitingCall true maxR period path clientId st now
        = (.raised rateLimitException, st.cleanup now)) ∧
    ((st.get ("ratelimit:" ++ clientId ++ ":" ++ path) now).1.1 < maxR →
      (rateLimitingCall true maxR period path clientId st now).1
        = .forwarded ((st.get ("ratelimit:" ++ clientId ++ ":" ++ path) now).1.1 + 1)
            [("X-RateLimit-Limit", toString maxR),
             ("X-RateLimit-Remaining",
               toString (max 0 (maxR - ((st.get ("ratelimit:" ++ clientId ++ ":" ++ path) now).1.1 + 1)))),
             ("X-RateLimit-Reset", toString (now + period))] ∧
      (rateLimitingCall true maxR period path clientId st now).2.store
          ("ratelimit:" ++ clientId ++ ":" ++ path)
        = some ((st.get ("ratelimit:" ++ clientId ++ ":" ++ path) now).1.1 + 1,
            now + period)) := by
  have hnotskip : ¬ should_skip_rate_limit path = true := by simp [hskip]
  constructor
  · intro hge
    unfold rateLimitingCall
    rw [if_neg (by simp), if_neg hnotskip, if_pos hge]
    rfl
  · intro hlt
    unfold rateLimitingCall
    rw [if_neg (by simp), if_neg hnotskip, if_neg (by omega)]
    refine ⟨?_, ?_⟩ <;>
      simp [InMemoryStore.increment, InMemoryStore.get,
        InMemoryStore.cleanup_idem]

/-- C5, witness: with `max_requests = 3`, window 60 s, identity
`ip:1.2.3.4` on route `/api/v1/games`: a store holding count 3
(unexpired, `last_cleanup = now = 100`) throttles with
`RateLimitException` and is not incremented, and an empty store forwards
the request with counter set to `(1, 160)` and headers limit 3,
remaining 2, reset 160. -/
theorem claimC5_witness :
    rateLimitingCall true 3 60 "/api/v1/games" "ip:1.2.3.4"
      ⟨fun k => if k = "ratelimit:ip:1.2.3.4:/api/v1/games" then some (3, 160) else none, 100⟩
      100
      = (.raised rateLimitException,
         InMemoryStore.cleanup
           ⟨fun k => if k = "ratelimit:ip:1.2.3.4:/api/v1/games" then some (3, 160) else none, 100⟩
           100) ∧
    ((rateLimitingCall true 3 60 "/api/v1/games" "ip:1.2.3.4"
        ⟨fun _ => none, 100⟩ 100).1
      = .forwarded 1
          [("X-RateLimit-Limit", toString (3 : Int)),
           ("X-RateLimit-Remaining", toString (max 0 ((3 : Int) - 1))),
           ("X-RateLimit-Reset", toString ((100 : Int) + 60))] ∧
     (rateLimitingCall true 3 60 "/api/v1/games" "ip:1.2.3.4"
        ⟨fun _ => none, 100⟩ 100).2.store "ratelimit:ip:1.2.3.4:/api/v1/games"
      = some (1, 160)) :=
  ⟨(claimC5_throttle_or_increment 3 60 "/api/v1/games" "ip:1.2.3.4"
      ⟨fun k => if k = "ratelimit:ip:1.2.3.4:/api/v1/games" then some (3, 160) else none, 100⟩
      100 rfl).1 (by decide),
   (claimC5_throttle_or_increment 3 60 "/api/v1/games" "ip:1.2.3.4"
      ⟨fun _ => none, 100⟩ 100 rfl).2 (by decide)⟩

/-! ## Claim C6 -/

/-- C6, counterexample: a malformed bearer token does NOT produce an
authentication error. `jose.jwt.decode` raises `JWTError`, which
`decode_token` converts into `ValueError("Invalid token")`; the
`except (JWTError, ValidationError)` clause of `get_current_user` does
not catch `ValueError`, so the failure that escapes is a plain
`ValueError` — not a 401 response with a WWW-Authenticate challenge. -/
theorem claimC6_counterexample :
    get_current_user (some "garbled") (fun _ => .jwtError) 0 (fun _ => none)
      = .error (.valueError "Invalid token") ∧
    PyExc.valueError "Invalid token"
      ≠ authenticationException "Invalid authentication credentials" := by
  exact ⟨rfl, by decide⟩

/-- C6, amended: `get_current_user` returns the resolved user record
exactly when a bearer token is present, `jose` verification succeeds,
the payload validates as `TokenPayload`, `exp ≥ now`, and the referenced
user exists — the token's `type` is never consulted, so a valid
unexpired refresh-type token is accepted. The failure cases map to:
missing token → `AuthenticationException` (401 + WWW-Authenticate);
`jose` verification failure (malformed, wrong signature, or expired) →
`ValueError("Invalid token")` propagating out of `decode_token`, not an
authentication error; payload validation failure →
`AuthenticationException`; `exp < now` (reachable only if `jose` did not
already reject the expiry) → `AuthenticationException("Token expired")`;
user no longer present → `ResourceNotFoundException` (404, no
challenge header), the `user is None` authentication check being
unreachable. -/
theorem claimC6_amended (verify : String → JoseResult) (now : Int)
    (db : String → Option User) (t : String) (p : Payload)
    (td : TokenData) (u : User) :
    (get_current_user none verify now db
      = .error (authenticationException "Not authenticated")) ∧
    (verify t = .jwtError →
      get_current_user (some t) verify now db
        = .error (.valueError "Invalid token")) ∧
    (verify t = .payload p → tokenPayloadValidate p = .error .validationError →
      get_current_user (some t) verify now db
        = .error (authenticationException "Invalid authentication credentials")) ∧
    (verify t = .payload p → tokenPayloadValidate p = .ok td → td.exp < now →
      get_current_user (some t) verify now db
        = .error (authenticationException "Token expired")) ∧
    (verify t = .payload p → tokenPayloadValidate p = .ok td → ¬ td.exp < now →
      db td.sub = none →
      get_current_user (some t) verify now db
        = .error (resourceNotFoundException "playstudy_users" td.sub)) ∧
    (verify t = .payload p → tokenPayloadValidate p = .ok td → ¬ td.exp < now →
      db td.sub = some u →
      get_current_user (some t) verify now db = .ok u) := by
  refine ⟨rfl, ?_, ?_, ?_, ?_, ?_⟩
  · intro hv
    simp [get_current_user, decode_token, hv]
  · intro hv hval
    simp [get_current_user, decode_token, hv, hval]
  · intro hv hval hexp
    simp [get_current_user, decode_token, userServiceGetUser, repositoryGet,
      hv, hval, hexp, authenticationException]
  · intro hv hval hexp hdb
    simp [get_current_user, decode_token, userServiceGetUser, repositoryGet,
      hv, hval, hexp, hdb, resourceNotFoundException]
  · intro hv hval hexp hdb
    simp [get_current_user, decode_token, userServiceGetUser, repositoryGet,
      hv, hval, hexp, hdb]

/-- C6, witness for the amended theorem: each behaviour exercised at a
concrete input — no token; a malformed token; a payload missing `sub`;
an expired payload; a valid payload whose user is gone; and a valid,
unexpired REFRESH-type token whose user exists, which is accepted. -/
theorem claimC6_amended_witness :
    (get_current_user none (fun _ => .jwtError) 50 (fun _ => none)
      = .error (authenticationException "Not authenticated")) ∧
    (get_current_user (some "bad") (fun _ => .jwtError) 50 (fun _ => none)
      = .error (.valueError "Invalid token")) ∧
    (get_current_user (some "t")
        (fun _ => .payload ⟨none, some 100, some "j", none⟩) 50 (fun _ => none)
      = .error (authenticationException "Invalid authentication credentials")) ∧
    (get_current_user (some "t")
        (fun _ => .payload ⟨some "u1", some 10, some "j", none⟩) 50 (fun _ => none)
      = .error (authenticationException "Token expired")) ∧
    (get_current_user (some "t")
        (fun _ => .payload ⟨some "u1", some 100, some "j", none⟩) 50 (fun _ => none)
      = .error (resourceNotFoundException "playstudy_users" "u1")) ∧
    (get_current_user (some "t")
        (fun _ => .payload ⟨some "u1", some 100, some "j", some "refresh"⟩) 50
        (fun uid => if uid = "u1" then some { id := "u1", email := "a@b.c" } else none)
      = .ok { id := "u1", email := "a@b.c" }) :=
  ⟨(claimC6_amended (fun _ => .jwtError) 50 (fun _ => none) "t"
      ⟨none, none, none, none⟩ ⟨"", 0, "", none⟩ { id := "", email := "" }).1,
   (claimC6_amended (fun _ => .jwtError) 50 (fun _ => none) "bad"
      ⟨none, none, none, none⟩ ⟨"", 0, "", none⟩ { id := "", email := "" }).2.1 rfl,
   (claimC6_amended (fun _ => .payload ⟨none, some 100, some "j", none⟩) 50
      (fun _ => none) "t" ⟨none, some 100, some "j", none⟩
      ⟨"", 0, "", none⟩ { id := "", email := "" }).2.2.1 rfl rfl,
   (claimC6_amended (fun _ => .payload ⟨some "u1", some 10, some "j", none⟩) 50
      (fun _ => none) "t" ⟨some "u1", some 10, some "j", none⟩
      ⟨"u1", 10, "j", none⟩ { id := "", email := "" }).2.2.2.1 rfl rfl (by norm_num),
   (claimC6_amended (fun _ => .payload ⟨some "u1", some 100, some "j", none⟩) 50
      (fun _ => none) "t" ⟨some "u1", some 100, some "j", none⟩
      ⟨"u1", 100, "j", none⟩ { id := "", email := "" }).2.2.2.2.1 rfl rfl
      (by norm_num) rfl,
   (claimC6_amended (fun _ => .payload ⟨some "u1", some 100, some "j", some "refresh"⟩)
      50 (fun uid => if uid = "u1" then some { id := "u1", email := "a@b.c" } else none)
      "t" ⟨some "u1", some 100, some "j", some "refresh"⟩
      ⟨"u1", 100, "j", some "refresh"⟩ { id := "u1", email := "a@b.c" }).2.2.2.2.2
      rfl rfl (by norm_num) (by simp)⟩

/-! ## Claim C7 -/

/-- C7, counterexample: with an authenticated user id PRESENT in request
state but equal to the empty string, `_get_client_id` does not return
`"user:" + user_id`: Python's truthiness test `if user_id:` treats `""`
as absent, and the forwarded-for header wins instead. Likewise the
claim's "regardless of forwarding headers" fails at this input. -/
theorem claimC7_counterexample :
    get_client_id (some "") (some "1.2.3.4, 5.6.6.6") (some "9.9.9.9")
      = "ip:1.2.3.4" ∧
    "ip:1.2.3.4" ≠ "user:" ++ "" := by
  exact ⟨rfl, by decide⟩

/-- C7, amended: client identity resolution is a total pure function of
(state user id, X-Forwarded-For header, peer address): it returns
`"user:" + user_id` whenever a NON-EMPTY authenticated user id is
present (regardless of forwarding headers); otherwise, when a NON-EMPTY
X-Forwarded-For header is present, `"ip:" +` its first comma-separated
entry trimmed; otherwise `"ip:" +` the peer address, and the literal
`"ip:unknown"` when the peer address is missing. (Presence of an empty
user id or an empty header falls through to the next source: Python
truthiness.) -/
theorem claimC7_amended (uid x h : Option String) (s f : String) :
    (uid = some s → s ≠ "" → get_client_id uid x h = "user:" ++ s) ∧
    (pyTruthy uid = false → x = some f → f ≠ "" →
      get_client_id uid x h
        = "ip:" ++ pyStrip ((pySplitChar f ',').headD "")) ∧
    (pyTruthy uid = false → pyTruthy x = false →
      get_client_id uid x h = "ip:" ++ h.getD "unknown") := by
  refine ⟨?_, ?_, ?_⟩
  · intro huid hs
    subst huid
    simp [get_client_id, pyTruthy, hs]
  · intro huid hx hf
    subst hx
    have hxf : pyTruthy (some f) = true := by simp [pyTruthy, hf]
    simp [get_client_id, huid, hxf]
  · intro huid hx
    simp [get_client_id, huid, hx]

/-- C7, witness: the three branches at concrete requests — a non-empty
user id wins over the forwarded header; without a user id the first
forwarded entry is used trimmed; with neither, the missing peer address
resolves to `ip:unknown`. -/
theorem claimC7_amended_witness :
    get_client_id (some "u7") (some "1.2.3.4, 5.6.6.6") (some "9.9.9.9")
      = "user:" ++ "u7" ∧
    get_client_id none (some "1.2.3.4, 5.6.6.6") (some "9.9.9.9")
      = "ip:" ++ pyStrip ((pySplitChar "1.2.3.4, 5.6.6.6" ',').headD "") ∧
    get_client_id none none none = "ip:" ++ (none : Option String).getD "unknown" :=
  ⟨(claimC7_amended (some "u7") (some "1.2.3.4, 5.6.6.6") (some "9.9.9.9")
      "u7" "f").1 rfl (by decide),
   (claimC7_amended none (some "1.2.3.4, 5.6.6.6") (some "9.9.9.9")
      "s" "1.2.3.4, 5.6.6.6").2.1 rfl rfl (by decide),
   (claimC7_amended none none none "s" "f").2.2 rfl rfl⟩

/-! ## Claim C8 -/

/-- A fresh record with `xp_points = 0, level = 1` satisfies the level
invariant. -/
theorem levelInvariant_fresh :
    (1 : Int) = min (max (Int.fdiv 0 100 + 1) 1) 100 := by decide

/-- C8: the level invariant
`level = clamp(floor(xp_points / 100) + 1, 1, 100)` is established by
`User.create`, preserved by `update_login`, `update_profile` and
`increment_games_played`, and (re-)established unconditionally by
`add_xp` for any amount; `calculate_level` satisfies the same clamp
formula for every xp, with the claimed values at 0, 250 and 10000. -/
theorem claimC8_level_invariant (u : User) (id email : String)
    (nm img : Option String) (n now : Int)
    (hinv : levelInvariant u) :
    levelInvariant (User.create id email nm img now) ∧
    levelInvariant (u.update_login now) ∧
    levelInvariant (u.update_profile nm img now) ∧
    levelInvariant (u.add_xp n now) ∧
    levelInvariant (u.increment_games_played now) ∧
    calculate_level 0 = 1 ∧
    calculate_level 250 = 3 ∧
    calculate_level 10000 = 100 ∧
    (∀ xp : Int, calculate_level xp = min (max (Int.fdiv xp 100 + 1) 1) 100) := by
  refine ⟨?_, hinv, hinv, ?_, hinv, by decide, by decide, by decide, ?_⟩
  · exact levelInvariant_fresh
  · simpa [levelInvariant, User.add_xp, pyIntDivHundred]
      using level_formula_eq (u.xp_points + n)
  · intro xp
    simpa [calculate_level, pyIntDivHundred] using level_formula_eq xp

/-- C8, witness: the invariant holds for a freshly created user and
after an XP grant of 250 to a fresh user, and the three concrete level
values of the claim hold. -/
theorem claimC8_witness :
    levelInvariant (User.create "u0" "e@x" none none 5) ∧
    levelInvariant (User.add_xp { id := "u0", email := "e@x" } 250 5) ∧
    calculate_level 0 = 1 ∧
    calculate_level 250 = 3 ∧
    calculate_level 10000 = 100 :=
  ⟨(claimC8_level_invariant { id := "u0", email := "e@x" } "u0" "e@x"
      none none 250 5 levelInvariant_fresh).1,
   (claimC8_level_invariant { id := "u0", email := "e@x" } "u0" "e@x"
      none none 250 5 levelInvariant_fresh).2.2.2.1,
   (claimC8_level_invariant { id := "u0", email := "e@x" } "u0" "e@x"
      none none 250 5 levelInvariant_fresh).2.2.2.2.2.1,
   (claimC8_level_invariant { id := "u0", email := "e@x" } "u0" "e@x"
      none none 250 5 levelInvariant_fresh).2.2.2.2.2.2.1,
   (claimC8_level_invariant { id := "u0", email := "e@x" } "u0" "e@x"
      none none 250 5 levelInvariant_fresh).2.2.2.2.2.2.2.1⟩

/-! ## Claim C9 -/

/-- C9: for a request whose path is not on the logging skip-list, the
request id generated at entry appears verbatim in the `X-Request-ID`
response header and in the "completed" log record together with the
elapsed duration in milliseconds; when the downstream pipeline raises,
the same id and duration appear in the "failed" record and the exception
is re-propagated unchanged. -/
theorem claimC9_request_id_propagation (path method rid : String)
    (s t0 t1 : Int) (e : PyExc)
    (hskip : should_skip_logging path = false) :
    (requestLoggingCall path method rid (.success s) t0 t1).response_headers
        = [("X-Request-ID", rid)] ∧
    (requestLoggingCall path method rid (.success s) t0 t1).records
        = [{ kind := "started", request_id := rid, method := method, path := path },
           { kind := "completed", request_id := rid, method := method, path := path,
             status_code := some s, duration_ms := some (t1 - t0) }] ∧
    (requestLoggingCall path method rid (.success s) t0 t1).result
        = .completed s ∧
    (requestLoggingCall path method rid (.failure e) t0 t1).records
        = [{ kind := "started", request_id := rid, method := method, path := path },
           { kind := "failed", request_id := rid, method := method, path := path,
             duration_ms := some (t1 - t0), error := some (excMessage e) }] ∧
    (requestLoggingCall path method rid (.failure e) t0 t1).result
        = .raised e := by
  simp [requestLoggingCall, hskip]

/-- C9, witness: a concrete GET to `/api/v1/users` with request id
`req-123`, entered at 100 ms and finished at 158 ms: the header and both
kinds of record carry the id and the 58 ms duration, and the concrete
`ValueError` is re-raised. -/
theorem claimC9_witness :
    (requestLoggingCall "/api/v1/users" "GET" "req-123" (.success 200) 100 158).response_headers
        = [("X-Request-ID", "req-123")] ∧
    (requestLoggingCall "/api/v1/users" "GET" "req-123" (.success 200) 100 158).records
        = [{ kind := "started", request_id := "req-123", method := "GET",
             path := "/api/v1/users" },
           { kind := "completed", request_id := "req-123", method := "GET",
             path := "/api/v1/users", status_code := some 200,
             duration_ms := some (158 - 100) }] ∧
    (requestLoggingCall "/api/v1/users" "GET" "req-123" (.success 200) 100 158).result
        = .completed 200 ∧
    (requestLoggingCall "/api/v1/users" "GET" "req-123"
        (.failure (.valueError "boom")) 100 158).records
        = [{ kind := "started", request_id := "req-123", method := "GET",
             path := "/api/v1/users" },
           { kind := "failed", request_id := "req-123", method := "GET",
             path := "/api/v1/users", duration_ms := some (158 - 100),
             error := some (excMessage (.valueError "boom")) }] ∧
    (requestLoggingCall "/api/v1/users" "GET" "req-123"
        (.failure (.valueError "boom")) 100 158).result
        = .raised (.valueError "boom") :=
  claimC9_request_id_propagation "/api/v1/users" "GET" "req-123" 200 100 158
    (.valueError "boom") rfl

/-! ## Claim C10: helper lemmas -/

/-- Sanitization preserves the key list of an object. -/
theorem sanitize_keys : (fs : JsonFields) →
    jsonKeys (sanitizeFields fs) = jsonKeys fs
  | .nil => rfl
  | .cons k v rest => by
    unfold sanitizeFields jsonKeys
    rw [sanitize_keys rest]

mutual

/-- After sanitization every sensitive key (in every reached position)
is bound to the mask. -/
theorem masked_sanitizeJson : (j : Json) → maskedJson (sanitizeJson j) = true
  | .obj fields => masked_sanitizeFields fields
  | .null => rfl
  | .bool _ => rfl
  | .num _ => rfl
  | .str _ => rfl
  | .arr _ => rfl

/-- Fieldwise version of `masked_sanitizeJson`. -/
theorem masked_sanitizeFields : (fs : JsonFields) →
    maskedFields (sanitizeFields fs) = true
  | .nil => rfl
  | .cons k v rest => by
    by_cases hs : isSensitiveKey k
    · simp [sanitizeFields, maskedFields, hs, jsonBeq, maskValue,
        masked_sanitizeFields rest]
    · simp [sanitizeFields, maskedFields, hs,
        masked_sanitizeValue v, masked_sanitizeFields rest]

/-- Value version of `masked_sanitizeJson`. -/
theorem masked_sanitizeValue : (v : Json) →
    maskedValue (sanitizeValue v) = true
  | .obj fields => masked_sanitizeFields fields
  | .arr items => masked_sanitizeItems items
  | .null => rfl
  | .bool _ => rfl
  | .num _ => rfl
  | .str _ => rfl

/-- Itemwise version of `masked_sanitizeJson`. -/
theorem masked_sanitizeItems : (l : JsonList) →
    maskedItems (sanitizeItems l) = true
  | .nil => rfl
  | .cons item rest => by
    cases item with
    | obj fields =>
      simp [sanitizeItems, sanitizeItem, maskedItems,
        masked_sanitizeFields fields, masked_sanitizeItems rest]
    | null => simp [sanitizeItems, sanitizeItem, maskedItems, masked_sanitizeItems rest]
    | bool b => simp [sanitizeItems, sanitizeItem, maskedItems, masked_sanitizeItems rest]
    | num n => simp [sanitizeItems, sanitizeItem, maskedItems, masked_sanitizeItems rest]
    | str s => simp [sanitizeItems, sanitizeItem, maskedItems, masked_sanitizeItems rest]
    | arr l' => simp [sanitizeItems, sanitizeItem, maskedItems, masked_sanitizeItems rest]

end

mutual

/-- Noninterference of the sanitizer: on values that differ only in
sensitive positions, sanitization gives identical outputs. -/
theorem agree_sanitizeJson : {a b : Json} → AgreeJson a b →
    sanitizeJson a = sanitizeJson b
  | _, _, .obj h => congrArg Json.obj (agree_sanitizeFields h)
  | _, _, .refl _ => rfl

/-- Fieldwise version of `agree_sanitizeJson`. -/
theorem agree_sanitizeFields : {fa fb : JsonFields} → AgreeFields fa fb →
    sanitizeFields fa = sanitizeFields fb
  | _, _, .nil => rfl
  | _, _, @AgreeFields.sensitive k v v' rest rest' hs hrest => by
    unfold sanitizeFields
    rw [agree_sanitizeFields hrest, hs]
    simp
  | _, _, @AgreeFields.value k v v' rest rest' hv hrest => by
    unfold sanitizeFields
    rw [agree_sanitizeFields hrest]
    by_cases hk : isSensitiveKey k
    · simp [hk]
    · simp [hk, agree_sanitizeValue hv]

/-- Value version of `agree_sanitizeJson`. -/
theorem agree_sanitizeValue : {a b : Json} → AgreeValue a b →
    sanitizeValue a = sanitizeValue b
  | _, _, .obj h => congrArg Json.obj (agree_sanitizeFields h)
  | _, _, .arr h => congrArg Json.arr (agree_sanitizeItems h)
  | _, _, .refl _ => rfl

/-- Item version of `agree_sanitizeJson`. -/
theorem agree_sanitizeItem : {a b : Json} → AgreeItem a b →
    sanitizeItem a = sanitizeItem b
  | _, _, .obj h => congrArg Json.obj (agree_sanitizeFields h)
  | _, _, .refl _ => rfl

/-- Itemwise version of `agree_sanitizeJson`. -/
theorem agree_sanitizeItems : {la lb : JsonList} → AgreeItems la lb →
    sanitizeItems la = sanitizeItems lb
  | _, _, .nil => rfl
  | _, _, .cons h hrest => by
    unfold sanitizeItems
    rw [agree_sanitizeItem h, agree_sanitizeItems hrest]

end

/-! ## Claim C10 -/

/-- C10: `_sanitize_json` maps every dict to a dict with exactly the
same key list; after sanitization every key whose lowercased name
contains a sensitive substring is bound to the mask `"********"`, in
every position the sanitizer reaches (recursively through nested dicts
and through dicts directly inside list values); and consequently the
sanitizer does not depend on sensitive values: two inputs that differ
only in the values bound to sensitive keys sanitize to identical
outputs. -/
theorem claimC10_sanitizer (j a b : Json) (fs : JsonFields)
    (hagree : AgreeJson a b) :
    sanitizeJson (.obj fs) = .obj (sanitizeFields fs) ∧
    jsonKeys (sanitizeFields fs) = jsonKeys fs ∧
    maskedJson (sanitizeJson j) = true ∧
    sanitizeJson a = sanitizeJson b :=
  ⟨rfl, sanitize_keys fs, masked_sanitizeJson j, agree_sanitizeJson hagree⟩

/-- C10, witness: a concrete body with a sensitive `password` key, a
`tags` list holding a dict with a sensitive `token` key, and a benign
`user` key; the inputs differ exactly in the two sensitive values and
sanitize identically. -/
theorem claimC10_witness :
    sanitizeJson (.obj (JsonFields.cons "user" (.str "amy") JsonFields.nil))
      = .obj (sanitizeFields (JsonFields.cons "user" (.str "amy") JsonFields.nil)) ∧
    jsonKeys (sanitizeFields (JsonFields.cons "user" (.str "amy") JsonFields.nil))
      = jsonKeys (JsonFields.cons "user" (.str "amy") JsonFields.nil) ∧
    maskedJson (sanitizeJson (.obj (JsonFields.cons "password" (.str "hunter2")
        (JsonFields.cons "tags"
          (.arr (JsonList.cons
            (.obj (JsonFields.cons "token" (.str "t1") JsonFields.nil))
            JsonList.nil))
          (JsonFields.cons "user" (.str "amy") JsonFields.nil))))) = true ∧
    sanitizeJson (.obj (JsonFields.cons "password" (.str "hunter2")
        (JsonFields.cons "tags"
          (.arr (JsonList.cons
            (.obj (JsonFields.cons "token" (.str "t1") JsonFields.nil))
            JsonList.nil))
          (JsonFields.cons "user" (.str "amy") JsonFields.nil))))
      = sanitizeJson (.obj (JsonFields.cons "password" (.str "letmein")
        (JsonFields.cons "tags"
          (.arr (JsonList.cons
            (.obj (JsonFields.cons "token" (.str "t2") JsonFields.nil))
            JsonList.nil))
          (JsonFields.cons "user" (.str "amy") JsonFields.nil)))) :=
  claimC10_sanitizer
    (.obj (JsonFields.cons "password" (.str "hunter2")
      (JsonFields.cons "tags"
        (.arr (JsonList.cons
          (.obj (JsonFields.cons "token" (.str "t1") JsonFields.nil))
          JsonList.nil))
        (JsonFields.cons "user" (.str "amy") JsonFields.nil))))
    (.obj (JsonFields.cons "password" (.str "hunter2")
      (JsonFields.cons "tags"
        (.arr (JsonList.cons
          (.obj (JsonFields.cons "token" (.str "t1") JsonFields.nil))
          JsonList.nil))
        (JsonFields.cons "user" (.str "amy") JsonFields.nil))))
    (.obj (JsonFields.cons "password" (.str "letmein")
      (JsonFields.cons "tags"
        (.arr (JsonList.cons
          (.obj (JsonFields.cons "token" (.str "t2") JsonFields.nil))
          JsonList.nil))
        (JsonFields.cons "user" (.str "amy") JsonFields.nil))))
    (JsonFields.cons "user" (.str "amy") JsonFields.nil)
    (AgreeJson.obj
      (AgreeFields.sensitive rfl
        (AgreeFields.value
          (AgreeValue.arr
            (AgreeItems.cons
              (AgreeItem.obj (AgreeFields.sensitive rfl AgreeFields.nil))
              AgreeItems.nil))
          (AgreeFields.value (AgreeValue.refl _) AgreeFields.nil))))
